import Mathlib

/-!
Verification of the CR2 decoder core (src/librawspeed/decoders/Cr2Decoder.cpp)
against its natural-language specification.

The C++ code is shallowly embedded: C `int` arithmetic is modelled by
unbounded `Int` (the decoder's intermediate values stay well inside the
32-bit range for real inputs; signed overflow is undefined behaviour in the
source anyway), `>>` on a signed `int` is modelled as an arithmetic shift,
i.e. floor division by a power of two (the universal implementation-defined
behaviour), and unsigned 16/32-bit quantities are modelled by `Nat`.
Out-of-scope collaborators (the TIFF entry accessors, the byte-stream
reader, the `RawImage` table operations, `clampbits`) are not part of the
two source files; they are modelled from the specification, and each such
definition is marked `Modelled from the spec:` in its doc comment.
-/

namespace Cr2Spec

/-- Arithmetic shift right on `Int`: the model of C `>> n` on a signed
`int`, i.e. floor division by `2 ^ n`. -/
def asr (x : Int) (n : Nat) : Int := Int.fdiv x ((2 : Int) ^ n)

/-- Modelled from the spec: `clampbits(v, 16)` from `common/Common.h`
(not under the two source files); section 4.4 of the spec says each
component is "clamped to the unsigned 16-bit range [0, 65535]". -/
def clampbits16 (v : Int) : Int := min (max v 0) 65535

/-- Host (or container) byte order. -/
inductive Endianness
  | little
  | big
deriving DecidableEq

/-- Big-endian 16-bit value assembled from the two bytes at `p`, `p + 1`
(each byte taken mod 256). -/
def be16 (byteAt : Nat → Nat) (p : Nat) : Nat :=
  256 * (byteAt p % 256) + byteAt (p + 1) % 256

/-- Modelled from the spec: `ByteStream::getShort` of the generic
byte-stream reader, which section 1 of the spec puts out of scope.  The
stream is constructed with an in-native-byte-order flag; `getShort` reads
the two bytes at `pos` in the host byte order when the flag is set and
byte-swapped otherwise. -/
def byteStreamGetShort (byteAt : Nat → Nat) (pos : Nat) (host : Endianness)
    (inNative : Bool) : Nat :=
  let hostOrder : Nat :=
    match host with
    | Endianness.little => byteAt pos % 256 + 256 * (byteAt (pos + 1) % 256)
    | Endianness.big => 256 * (byteAt pos % 256) + byteAt (pos + 1) % 256
  if inNative then hostOrder else hostOrder % 256 * 256 + hostOrder / 256

/-- The height/width read of `Cr2Decoder::decodeOldFormat` (lines 76-78):
`ByteStream b(mFile, off+41, getHostEndianness() == big);` followed by
`height = b.getShort(); width = b.getShort();`.  The result is the pair
(height, width) in read order.  The container's own endianness is an
explicit parameter here only to record that the source never consults it;
the body ignores it, exactly as the source does. -/
def oldFormatHeightWidth (byteAt : Nat → Nat) (off : Nat)
    (host _containerEnd : Endianness) : Nat × Nat :=
  let inNative : Bool := host == Endianness.big
  let height := byteStreamGetShort byteAt (off + 41) host inNative
  let width := byteStreamGetShort byteAt (off + 43) host inNative
  (height, width)

/-- The mode string computed by `Cr2Decoder::decodeMetaDataInternal`
(lines 307-313) from the raster's subsampling factors: `mode` starts
empty, is set to "sRaw1" when `subsampling.y == 2 && subsampling.x == 2`,
and to "sRaw2" when `subsampling.y == 1 && subsampling.x == 2`. -/
def modeString (ssx ssy : Nat) : String :=
  let mode := ""
  let mode := if ssy = 2 ∧ ssx = 2 then "sRaw1" else mode
  let mode := if ssy = 1 ∧ ssx = 2 then "sRaw2" else mode
  mode

/-- The two hint-map lookups performed by `Cr2Decoder::getHue`. -/
structure HueHints where
  oldSrawHue : Bool
  forceNewSrawHue : Bool

/-- `Cr2Decoder::getHue` (lines 366-378).  `modelId` is the value of the
recursive tag `0x10` lookup when the entry exists (`none` when absent);
`ssx`, `ssy` are `mRaw->metadata.subsampling.x/y`.  The C `int` return is
modelled as `Int`, with `>> 1` as an arithmetic shift. -/
def getHue (hints : HueHints) (modelId : Option Nat) (ssx ssy : Nat) : Int :=
  if hints.oldSrawHue then (ssy * ssx : Nat)
  else
    match modelId with
    | none => 0
    | some id =>
      if id ≥ 0x80000281 ∨ id = 0x80000218 ∨ hints.forceNewSrawHue then
        asr ((ssy * ssx : Nat) - 1 : Int) 1
      else (ssy * ssx : Nat)

/-- The constant `hue` local computed at the top of every interpolation
variant (lines 445, 500, 604, 656, 709): `const int hue = -getHue() + 16384;`.
This is the value each chroma sample read from memory has subtracted. -/
def hueBias (hue : Int) : Int := -hue + 16384

/-- The (w, h, cps) triple reported by `LJpegPlain::getSOF` for a slice
(the precision field plays no role in the decoder and is omitted). -/
structure SOFInfo where
  w : Nat
  h : Nat
  cps : Nat
deriving DecidableEq

/-- The slice descriptor `Cr2Slice` (lines 140-145). -/
structure Cr2Slice where
  w : Nat
  h : Nat
  offset : Nat
  size : Nat
deriving DecidableEq

/-- Modelled from the spec: the `TiffEntry` accessor `get_int(i)` of
section 6 — the i-th element of the entry coerced to integer; the C++
call `getInt()` with no argument reads element 0. -/
def getIntAt (vals : List Nat) (i : Nat) : Nat := vals.getD i 0

/-- Lines 165-179: turn one SOF interrogation into a slice descriptor,
applying the Canon double-height fix (`cps == 4 && sof.w > sof.h` implies
`sof.w /= 2; sof.h *= 2`), then `slice.w = sof.w * sof.cps`,
`slice.h = sof.h`. -/
def sliceFromSOF (sof : SOFInfo) (offset size : Nat) : Cr2Slice :=
  let sof :=
    if sof.cps = 4 ∧ sof.w > sof.h then SOFInfo.mk (sof.w / 2) (sof.h * 2) sof.cps
    else sof
  Cr2Slice.mk (sof.w * sof.cps) sof.h offset size

/-- The (offset, size) pair interrogated by the slice loop (lines 166-167):
`slice.offset = offsets[0].getInt(); slice.size = counts[0].getInt();` —
element 0 of each entry, on every iteration, whatever the loop index is. -/
def interrogatedOffsetSize (offsets counts : List Nat) : Nat × Nat :=
  (getIntAt offsets 0, getIntAt counts 0)

/-- The slice descriptor produced by any iteration of the slice loop; it
does not depend on the iteration index (the index-0 reads above). -/
def iterSlice (getSOF : Nat → Nat → SOFInfo) (offsets counts : List Nat) :
    Cr2Slice :=
  let p := interrogatedOffsetSize offsets counts
  sliceFromSOF (getSOF p.1 p.2) p.1 p.2

/-- Loop state of the slice loop: the `slices` vector and `completeH`. -/
structure SliceLoopState where
  slices : List Cr2Slice
  completeH : Nat
deriving DecidableEq

/-- One iteration of the slice loop (lines 164-187): read (offset, size)
from element 0 of the strip entries, interrogate the SOF, build the slice,
fail if its width differs from `slices[0].w`, push it only when
`mFile->isValid(offset, size)`, and add its height to `completeH`
unconditionally.  `getSOF` abstracts `LJpegPlain::getSOF`, `isValid`
abstracts `FileMap::isValid`. -/
def sliceLoopStep (getSOF : Nat → Nat → SOFInfo) (isValid : Nat → Nat → Bool)
    (offsets counts : List Nat) (st : SliceLoopState) :
    Except String SliceLoopState :=
  let off := getIntAt offsets 0
  let sz := getIntAt counts 0
  let slice := sliceFromSOF (getSOF off sz) off sz
  let push : List Cr2Slice := if isValid off sz then [slice] else []
  match st.slices with
  | [] => Except.ok ⟨push, st.completeH + slice.h⟩
  | s0 :: _ =>
    if s0.w ≠ slice.w then
      Except.error "CR2 Decoder: Slice width does not match."
    else Except.ok ⟨st.slices ++ push, st.completeH + slice.h⟩

/-- The slice loop, iterated.  The loop variable `s` is never consulted by
the body (that is exactly the index-0 bug recorded above), so only the
iteration count matters. -/
def sliceLoopIter (getSOF : Nat → Nat → SOFInfo) (isValid : Nat → Nat → Bool)
    (offsets counts : List Nat) : Nat → SliceLoopState →
    Except String SliceLoopState
  | 0, st => Except.ok st
  | n + 1, st =>
    match sliceLoopStep getSOF isValid offsets counts st with
    | Except.error e => Except.error e
    | Except.ok st2 => sliceLoopIter getSOF isValid offsets counts n st2

/-- The whole slice loop of `decodeNewFormat` (lines 158-187), running for
`offsets->count` iterations from the empty state. -/
def collectSlices (getSOF : Nat → Nat → SOFInfo) (isValid : Nat → Nat → Bool)
    (offsets counts : List Nat) : Except String SliceLoopState :=
  sliceLoopIter getSOF isValid offsets counts offsets.length ⟨[], 0⟩

/-- Lines 189-192: fail when no slice was kept, otherwise the provisional
raster dimensions `iPoint2D(slices[0].w, completeH)`. -/
def newFormatProvisionalDim (getSOF : Nat → Nat → SOFInfo)
    (isValid : Nat → Nat → Bool) (offsets counts : List Nat) :
    Except String (Nat × Nat) :=
  match collectSlices getSOF isValid offsets counts with
  | Except.error e => Except.error e
  | Except.ok st =>
    match st.slices with
    | [] => Except.error "CR2 Decoder: No Slices found."
    | s0 :: _ => Except.ok (s0.w, st.completeH)

/-- Spec-side quantity of claim C1: the sum of the per-slice widths. -/
def sliceWidthSum (slices : List Cr2Slice) : Nat :=
  (slices.map Cr2Slice.w).sum

/-- Spec-side quantity of claim C1: the maximum per-slice height. -/
def sliceHeightMax (slices : List Cr2Slice) : Nat :=
  (slices.map Cr2Slice.h).foldr max 0

/-- One invocation of the lossless-JPEG black box,
`l.decode(offset, size, dst_x, dst_y)` (section 6 of the spec gives the
argument order of the out-of-scope collaborator). -/
structure DecodeCall where
  offset : Nat
  size : Nat
  dstX : Nat
  dstY : Nat
deriving DecidableEq

/-- The decode dispatch loop (lines 234-253): slice i is decoded with
`l.decode(slice.offset, slice.size, 0, offY)` where `offY` starts at 0
and is advanced by `slice.w` after every slice — so the cumulative width
is passed as the destination y-origin (4th argument) and the x-origin
(3rd argument) is always 0. -/
def decodeCallsAux : List Cr2Slice → Nat → List DecodeCall
  | [], _ => []
  | s :: rest, offY =>
    DecodeCall.mk s.offset s.size 0 offY :: decodeCallsAux rest (offY + s.w)

/-- The decode invocations issued for a slice list, in order. -/
def decodeCalls (slices : List Cr2Slice) : List DecodeCall :=
  decodeCallsAux slices 0

/-- Spec-side quantity of claim C3: the sum of the widths of slices
`0..i-1`. -/
def prefixWidthSum (slices : List Cr2Slice) (i : Nat) : Nat :=
  ((slices.take i).map Cr2Slice.w).sum

/-- Outcome of one slice decode.  Modelled from the spec: section 6 lists
the two documented exception classes of the lossless-JPEG collaborator —
`IOException` (truncation) and the generic decoder exception
(`RawDecoderException`, malformed bitstream) — as distinct kinds. -/
inductive SliceOutcome
  | ok
  | rde (msg : String)
  | io (msg : String)
deriving DecidableEq

/-- The try/catch of the decode loop (lines 237-253), starting at slice
index `i`: a `RawDecoderException` is rethrown when `i == 0` and logged
via `mRaw->setError` otherwise; an `IOException` is always logged
("Let's try to ignore this"); the loop then continues with the next
slice.  The result is the raster's error log on completion, or the
propagated message. -/
def decodeLoopFrom : List SliceOutcome → Nat → Except String (List String)
  | [], _ => Except.ok []
  | o :: rest, i =>
    match o with
    | SliceOutcome.ok => decodeLoopFrom rest (i + 1)
    | SliceOutcome.rde m =>
      if i = 0 then Except.error m
      else
        match decodeLoopFrom rest (i + 1) with
        | Except.error e => Except.error e
        | Except.ok l => Except.ok (m :: l)
    | SliceOutcome.io m =>
      match decodeLoopFrom rest (i + 1) with
      | Except.error e => Except.error e
      | Except.ok l => Except.ok (m :: l)

/-- The decode loop started at slice 0. -/
def runSliceDecodes (outs : List SliceOutcome) : Except String (List String) :=
  decodeLoopFrom outs 0

/-- The messages logged when no outcome is fatal: one per decoder error or
I/O error, in slice order. -/
def loggedMessages : List SliceOutcome → List String
  | [] => []
  | SliceOutcome.ok :: rest => loggedMessages rest
  | SliceOutcome.rde m :: rest => m :: loggedMessages rest
  | SliceOutcome.io m :: rest => m :: loggedMessages rest

/-- The tag-0x123 entry, as far as lines 116-135 look at it: its type
(16-bit or not) and its value array. -/
structure TiffEntryShorts where
  isShortType : Bool
  values : List Nat
deriving DecidableEq

/-- The raster state the linearisation step operates on. -/
structure RawImg where
  dimx : Nat
  dimy : Nat
  samples : List Nat
  table : Option (List Nat)
deriving DecidableEq

/-- Modelled from the spec: `RawImage::setTable` — installs (with `none`,
detaches) the linearisation table on the raster. -/
def setTable (img : RawImg) (t : Option (List Nat)) : RawImg :=
  { img with table := t }

/-- Modelled from the spec: `RawImage::sixteenBitLookup` — section 4.3 of
the spec: "every sample is replaced by table[sample & 0xfff]", using the
installed table. -/
def sixteenBitLookup (img : RawImg) : RawImg :=
  match img.table with
  | none => img
  | some t => { img with samples := img.samples.map (fun s => getIntAt t (s &&& 0xfff)) }

/-- The linearisation step of `decodeOldFormat` (lines 116-135): when the
0x123 entry exists with 16-bit type and exactly 4096 values, install the
table; if uncorrected output was not requested, apply `sixteenBitLookup`
and detach the table (`setTable(nullptr)`), otherwise leave the table
installed without applying it. -/
def applyLinearisation (curve : Option TiffEntryShorts)
    (uncorrectedRawValues : Bool) (img : RawImg) : RawImg :=
  match curve with
  | none => img
  | some c =>
    if c.isShortType ∧ c.values.length = 4096 then
      if ¬ uncorrectedRawValues then
        setTable (sixteenBitLookup (setTable img (some c.values))) none
      else setTable img (some c.values)
    else img

/-- The concrete strip offsets used in the counterexamples below. -/
def exOffsets : List Nat := [100, 200]

/-- The concrete strip byte counts used in the counterexamples below. -/
def exCounts : List Nat := [10, 20]

/-- A concrete SOF oracle: the slice stored at (100, 10) is 2 samples
wide (after multiplying by cps = 1) and 3 rows tall. -/
def exGetSOF : Nat → Nat → SOFInfo :=
  fun o s => if o = 100 ∧ s = 10 then ⟨2, 3, 1⟩ else ⟨9, 9, 9⟩

/-- A validity oracle accepting every byte range. -/
def exValid : Nat → Nat → Bool := fun _ _ => true

/-- The classic YUV_TO_RGB macro (lines 419-428), including its three
trailing `>>= 8` shifts: the (r, g, b) triple before clamping. -/
def yuvRgbClassic (c0 c1 c2 Y Cb Cr : Int) : Int × Int × Int :=
  (asr (c0 * (Y + asr (50 * Cb + 22929 * Cr) 12)) 8,
   asr (c1 * (Y + asr (-5640 * Cb - 11751 * Cr) 12)) 8,
   asr (c2 * (Y + asr (29040 * Cb - 101 * Cr) 12)) 8)

/-- The STORE_RGB macro (lines 430-433): write the clamped components of
`v` at positions a, b, c of the scanline. -/
def storeRGB (line : Nat → Int) (a b c : Nat) (v : Int × Int × Int) :
    Nat → Int :=
  fun j =>
    if j = a then clampbits16 v.1
    else if j = b then clampbits16 v.2.1
    else if j = c then clampbits16 v.2.2
    else line j

/-- Clamp all three components (the effect of STORE_RGB on the values). -/
def clampTriple (v : Int × Int × Int) : Int × Int × Int :=
  (clampbits16 v.1, clampbits16 v.2.1, clampbits16 v.2.2)

/-- The x-loop of `Cr2Decoder::interpolate_422` (lines 450-464), operating
in place on one scanline: `n` is the remaining iteration count (the
already-decremented `w`), `off` the current position.  Each iteration
rewrites two pixels: the first with the directly debiased chroma pair,
the second with the average of this pair and the debiased next chroma
samples (read at off+4/off+5 after the first `off += 3`). -/
def interp422loop (c0 c1 c2 hb : Int) : Nat → Nat → (Nat → Int) → Nat → Int
  | 0, _off, line => line
  | n + 1, off, line =>
    let Cb := line (off + 1) - hb
    let Cr := line (off + 2) - hb
    let line1 := storeRGB line off (off + 1) (off + 2)
      (yuvRgbClassic c0 c1 c2 (line off) Cb Cr)
    let Cb2 := asr (Cb + line1 (off + 3 + 1 + 3) - hb) 1
    let Cr2 := asr (Cr + line1 (off + 3 + 2 + 3) - hb) 1
    let line2 := storeRGB line1 (off + 3) (off + 3 + 1) (off + 3 + 2)
      (yuvRgbClassic c0 c1 c2 (line1 (off + 3)) Cb2 Cr2)
    interp422loop c0 c1 c2 hb n (off + 3 + 3) line2

/-- The trailing two pixels of each interpolate_422 scanline
(lines 465-474): the second pixel reuses the previous pixel's Cb/Cr. -/
def interp422lastTwo (c0 c1 c2 hb : Int) (off : Nat) (line : Nat → Int) :
    Nat → Int :=
  let Cb := line (off + 1) - hb
  let Cr := line (off + 2) - hb
  let line1 := storeRGB line off (off + 1) (off + 2)
    (yuvRgbClassic c0 c1 c2 (line off) Cb Cr)
  storeRGB line1 (off + 3) (off + 4) (off + 5)
    (yuvRgbClassic c0 c1 c2 (line1 (off + 3)) Cb Cr)

/-- One scanline of `Cr2Decoder::interpolate_422` (lines 439-476): the
`w--` at entry, the x-loop, then the final two pixels at offset 6*(w-1).
`hue` is the `getHue()` value; the subtracted constant is
`hueBias hue = -hue + 16384` (line 445). -/
def interp422row (c0 c1 c2 hue : Int) (w : Nat) (line : Nat → Int) :
    Nat → Int :=
  let hb := hueBias hue
  let w1 := w - 1
  interp422lastTwo c0 c1 c2 hb (6 * w1) (interp422loop c0 c1 c2 hb w1 0 line)

/-- The two output pixels the x-loop produces from the source data at
offsets p..p+8 of the pre-loop scanline (the loop reads each location
before overwriting it, so all reads see the original data): the direct
pixel uses each chroma sample with the bias subtracted once; the averaged
pixel averages the debiased pair with the debiased next samples. -/
def interp422pairSpec (c0 c1 c2 hb : Int) (line : Nat → Int) (p : Nat) :
    (Int × Int × Int) × (Int × Int × Int) :=
  let Cb := line (p + 1) - hb
  let Cr := line (p + 2) - hb
  (yuvRgbClassic c0 c1 c2 (line p) Cb Cr,
   yuvRgbClassic c0 c1 c2 (line (p + 3))
     (asr (Cb + line (p + 7) - hb) 1) (asr (Cr + line (p + 8) - hb) 1))

/-- The final two pixels of a scanline in terms of the pre-loop data: the
first debiases its chroma pair, the second replicates that pair. -/
def interp422lastSpec (c0 c1 c2 hb : Int) (line : Nat → Int) (p : Nat) :
    (Int × Int × Int) × (Int × Int × Int) :=
  let Cb := line (p + 1) - hb
  let Cr := line (p + 2) - hb
  (yuvRgbClassic c0 c1 c2 (line p) Cb Cr,
   yuvRgbClassic c0 c1 c2 (line (p + 3)) Cb Cr)

/-- Spec-side reading of claim C6 as stated: the chroma value obtained by
ADDING the bias -hue + 16384 to the sample read from memory. -/
def chromaWithBiasAdded (hue sample : Int) : Int := sample + hueBias hue

/-- STORE_RGB into row `r` of the two-dimensional raster (the 4:2:0
variant writes two rows per pass). -/
def store3g (g : Nat → Nat → Int) (r a b c : Nat) (v : Int × Int × Int) :
    Nat → Nat → Int :=
  fun i => if i = r then storeRGB (g r) a b c v else g i

/-- The x-loop of `Cr2Decoder::interpolate_420` (lines 507-533) for the
row pair at `y2 = 2*y`: `c_line` is row y2, `n_line` row y2+1, `nn_line`
row y2+2; each iteration rewrites a 2-by-2 pixel block in place. -/
def interp420x (c0 c1 c2 hb : Int) (y2 : Nat) :
    Nat → Nat → (Nat → Nat → Int) → Nat → Nat → Int
  | 0, _off, g => g
  | n + 1, off, g =>
    let Cb := g y2 (off + 1) - hb
    let Cr := g y2 (off + 2) - hb
    let g1 := store3g g y2 off (off + 1) (off + 2)
      (yuvRgbClassic c0 c1 c2 (g y2 off) Cb Cr)
    let Cb2 := asr (Cb + g1 y2 (off + 1 + 6) - hb) 1
    let Cr2 := asr (Cr + g1 y2 (off + 2 + 6) - hb) 1
    let g2 := store3g g1 y2 (off + 3) (off + 4) (off + 5)
      (yuvRgbClassic c0 c1 c2 (g1 y2 (off + 3)) Cb2 Cr2)
    let Cb3 := asr (Cb + g2 (y2 + 2) (off + 1) - hb) 1
    let Cr3 := asr (Cr + g2 (y2 + 2) (off + 2) - hb) 1
    let g3 := store3g g2 (y2 + 1) off (off + 1) (off + 2)
      (yuvRgbClassic c0 c1 c2 (g2 (y2 + 1) off) Cb3 Cr3)
    let Cb4 := asr (Cb + Cb2 + Cb3 + g3 (y2 + 2) (off + 1 + 6) - hb) 2
    let Cr4 := asr (Cr + Cr2 + Cr3 + g3 (y2 + 2) (off + 2 + 6) - hb) 2
    let g4 := store3g g3 (y2 + 1) (off + 3) (off + 4) (off + 5)
      (yuvRgbClassic c0 c1 c2 (g3 (y2 + 1) (off + 3)) Cb4 Cr4)
    interp420x c0 c1 c2 hb y2 n (off + 6) g4

/-- The trailing four pixels of an interpolate_420 row pair
(lines 534-553): the c_line pair replicates Cb/Cr; the n_line pair
averages with the debiased nn_line samples. -/
def interp420tail (c0 c1 c2 hb : Int) (y2 off : Nat)
    (g : Nat → Nat → Int) : Nat → Nat → Int :=
  let Cb := g y2 (off + 1) - hb
  let Cr := g y2 (off + 2) - hb
  let g1 := store3g g y2 off (off + 1) (off + 2)
    (yuvRgbClassic c0 c1 c2 (g y2 off) Cb Cr)
  let g2 := store3g g1 y2 (off + 3) (off + 4) (off + 5)
    (yuvRgbClassic c0 c1 c2 (g1 y2 (off + 3)) Cb Cr)
  let Cb2 := asr (Cb + g2 (y2 + 2) (off + 1) - hb) 1
  let Cr2 := asr (Cr + g2 (y2 + 2) (off + 2) - hb) 1
  let g3 := store3g g2 (y2 + 1) off (off + 1) (off + 2)
    (yuvRgbClassic c0 c1 c2 (g2 (y2 + 1) off) Cb2 Cr2)
  store3g g3 (y2 + 1) (off + 3) (off + 4) (off + 5)
    (yuvRgbClassic c0 c1 c2 (g3 (y2 + 1) (off + 3)) Cb2 Cr2)

/-- The y-loop of interpolate_420 (lines 502-554): each iteration runs
the x-loop and then the row-pair tail at offset 6*w1. -/
def interp420y (c0 c1 c2 hb : Int) (w1 : Nat) :
    Nat → Nat → (Nat → Nat → Int) → Nat → Nat → Int
  | 0, _y, g => g
  | n + 1, y, g =>
    interp420y c0 c1 c2 hb w1 n (y + 1)
      (interp420tail c0 c1 c2 hb (2 * y) (6 * w1)
        (interp420x c0 c1 c2 hb (2 * y) w1 0 g))

/-- The atLastLine loop of interpolate_420 (lines 556-583): the bottom
row pair replicates Cb/Cr downwards; note the loop has no trailing-pixel
block of its own. -/
def interp420lastLoop (c0 c1 c2 hb : Int) (y2 : Nat) :
    Nat → Nat → (Nat → Nat → Int) → Nat → Nat → Int
  | 0, _off, g => g
  | n + 1, off, g =>
    let Cb := g y2 (off + 1) - hb
    let Cr := g y2 (off + 2) - hb
    let g1 := store3g g y2 off (off + 1) (off + 2)
      (yuvRgbClassic c0 c1 c2 (g y2 off) Cb Cr)
    let g2 := store3g g1 y2 (off + 3) (off + 4) (off + 5)
      (yuvRgbClassic c0 c1 c2 (g1 y2 (off + 3)) Cb Cr)
    let g3 := store3g g2 (y2 + 1) off (off + 1) (off + 2)
      (yuvRgbClassic c0 c1 c2 (g2 (y2 + 1) off) Cb Cr)
    let g4 := store3g g3 (y2 + 1) (off + 3) (off + 4) (off + 5)
      (yuvRgbClassic c0 c1 c2 (g3 (y2 + 1) (off + 3)) Cb Cr)
    interp420lastLoop c0 c1 c2 hb y2 n (off + 6) g4

/-- `Cr2Decoder::interpolate_420` (lines 480-584): `w--` at entry; when
`end_h == h` the last y iteration is split off into the atLastLine loop
over rows 2*end_h and 2*end_h + 1 (with end_h already decremented). -/
def interp420 (c0 c1 c2 hue : Int) (w h startH endH : Nat)
    (g : Nat → Nat → Int) : Nat → Nat → Int :=
  let w1 := w - 1
  let e := if endH = h then endH - 1 else endH
  let hb := hueBias hue
  let g1 := interp420y c0 c1 c2 hb w1 (e - startH) startH g
  if endH = h then interp420lastLoop c0 c1 c2 hb (2 * e) w1 0 g1
  else g1

/-- Spec-side description (claim C6 as amended) of the first 4:2:0 output
block: the four pixels produced from the top-left source data, every
chroma sample read from memory debiased by subtracting hb = -hue + 16384
exactly once (never on the partial sums). -/
def interp420blockSpec (c0 c1 c2 hb : Int) (g : Nat → Nat → Int) :
    (Int × Int × Int) × (Int × Int × Int) × (Int × Int × Int) ×
      (Int × Int × Int) :=
  let Cb := g 0 1 - hb
  let Cr := g 0 2 - hb
  let Cb2 := asr (Cb + g 0 7 - hb) 1
  let Cr2 := asr (Cr + g 0 8 - hb) 1
  let Cb3 := asr (Cb + g 2 1 - hb) 1
  let Cr3 := asr (Cr + g 2 2 - hb) 1
  (yuvRgbClassic c0 c1 c2 (g 0 0) Cb Cr,
   yuvRgbClassic c0 c1 c2 (g 0 3) Cb2 Cr2,
   yuvRgbClassic c0 c1 c2 (g 1 0) Cb3 Cr3,
   yuvRgbClassic c0 c1 c2 (g 1 3)
     (asr (Cb + Cb2 + Cb3 + g 2 7 - hb) 2)
     (asr (Cr + Cr2 + Cr3 + g 2 8 - hb) 2))

/-- Selector for the six scanline positions a loop iteration writes. -/
def sel6 (r : Nat) (pp : (Int × Int × Int) × (Int × Int × Int)) : Int :=
  if r = 0 then clampbits16 pp.1.1
  else if r = 1 then clampbits16 pp.1.2.1
  else if r = 2 then clampbits16 pp.1.2.2
  else if r = 3 then clampbits16 pp.2.1
  else if r = 4 then clampbits16 pp.2.2.1
  else clampbits16 pp.2.2.2

/-- A concrete scanline for the C6 counterexample: Y = 0, Cb sample
20480, Cr sample 16384 at the first triplet, 16384 elsewhere. -/
def exLine422 : Nat → Int :=
  fun j => if j = 0 then 0 else if j = 1 then 20480 else 16384

end Cr2Spec

namespace Cr2Spec

/-- C5 (confirmed): on the old-CR2 path the two 16-bit values at payload
offsets 41 and 43 (height, then width) are assembled big-endian from the
payload bytes, independently of both the host and the container
endianness; the container endianness is not consulted at all. -/
theorem oldFormat_heightWidth_big_endian (byteAt : Nat → Nat) (off : Nat)
    (host ce host2 ce2 : Endianness) :
    oldFormatHeightWidth byteAt off host ce =
      (be16 byteAt (off + 41), be16 byteAt (off + 43)) ∧
    oldFormatHeightWidth byteAt off host ce =
      oldFormatHeightWidth byteAt off host2 ce2 := by
  have swap : ∀ p, byteStreamGetShort byteAt p Endianness.little false =
      be16 byteAt p := by
    intro p
    have h1 : byteAt p % 256 < 256 := Nat.mod_lt _ (by norm_num)
    have h2 : byteAt (p + 1) % 256 < 256 := Nat.mod_lt _ (by norm_num)
    simp only [byteStreamGetShort, be16, if_neg Bool.false_ne_true]
    omega
  have native : ∀ p, byteStreamGetShort byteAt p Endianness.big true =
      be16 byteAt p := by
    intro p
    simp [byteStreamGetShort, be16]
  have key : ∀ h c, oldFormatHeightWidth byteAt off h c =
      (be16 byteAt (off + 41), be16 byteAt (off + 43)) := by
    intro h c
    cases h
    · simp only [oldFormatHeightWidth, show
        (Endianness.little == Endianness.big) = false from rfl]
      rw [swap, swap]
    · simp only [oldFormatHeightWidth, show
        (Endianness.big == Endianness.big) = true from rfl]
      rw [native, native]
  exact ⟨key host ce, (key host ce).trans (key host2 ce2).symm⟩

/-- Helper: `iterSlice` unfolded. -/
theorem iterSlice_eq (getSOF : Nat → Nat → SOFInfo) (offsets counts : List Nat) :
    iterSlice getSOF offsets counts =
      sliceFromSOF (getSOF (getIntAt offsets 0) (getIntAt counts 0))
        (getIntAt offsets 0) (getIntAt counts 0) := rfl

/-- Helper: when the (single, index-0) byte range is valid, the slice loop
keeps appending the one interrogated slice and accumulating its height. -/
theorem sliceLoopIter_valid_run (getSOF : Nat → Nat → SOFInfo)
    (isValid : Nat → Nat → Bool) (offsets counts : List Nat)
    (hv : isValid (getIntAt offsets 0) (getIntAt counts 0) = true) :
    ∀ (n m c : Nat),
      sliceLoopIter getSOF isValid offsets counts n
        ⟨List.replicate m (iterSlice getSOF offsets counts), c⟩ =
      Except.ok ⟨List.replicate (m + n) (iterSlice getSOF offsets counts),
        c + n * (iterSlice getSOF offsets counts).h⟩ := by
  intro n
  induction n with
  | zero => intro m c; simp [sliceLoopIter]
  | succ n ih =>
    intro m c
    have hstep : sliceLoopStep getSOF isValid offsets counts
        ⟨List.replicate m (iterSlice getSOF offsets counts), c⟩ =
        Except.ok ⟨List.replicate (m + 1) (iterSlice getSOF offsets counts),
          c + (iterSlice getSOF offsets counts).h⟩ := by
      cases m with
      | zero =>
        simp [sliceLoopStep, iterSlice_eq, hv]
      | succ m =>
        simp only [sliceLoopStep, List.replicate_succ, hv, if_true,
          iterSlice_eq, ne_eq, not_true_eq_false, if_false, ite_false,
          ← List.replicate_succ]
        rw [← List.replicate_succ']
        simp [List.replicate_succ]
    show (match sliceLoopStep getSOF isValid offsets counts
        ⟨List.replicate m (iterSlice getSOF offsets counts), c⟩ with
      | Except.error e => Except.error e
      | Except.ok st2 => sliceLoopIter getSOF isValid offsets counts n st2) = _
    rw [hstep]
    dsimp only
    rw [ih (m + 1) (c + (iterSlice getSOF offsets counts).h)]
    have e1 : m + 1 + n = m + (n + 1) := by omega
    have e2 : c + (iterSlice getSOF offsets counts).h +
        n * (iterSlice getSOF offsets counts).h =
        c + (n + 1) * (iterSlice getSOF offsets counts).h := by ring
    rw [e1, e2]

/-- Helper: when the (single, index-0) byte range is invalid, the slice
loop keeps no slice but still accumulates the interrogated height. -/
theorem sliceLoopIter_invalid_run (getSOF : Nat → Nat → SOFInfo)
    (isValid : Nat → Nat → Bool) (offsets counts : List Nat)
    (hv : isValid (getIntAt offsets 0) (getIntAt counts 0) = false) :
    ∀ (n c : Nat),
      sliceLoopIter getSOF isValid offsets counts n ⟨[], c⟩ =
      Except.ok ⟨[], c + n * (iterSlice getSOF offsets counts).h⟩ := by
  intro n
  induction n with
  | zero => intro c; simp [sliceLoopIter]
  | succ n ih =>
    intro c
    have hstep : sliceLoopStep getSOF isValid offsets counts ⟨[], c⟩ =
        Except.ok ⟨[], c + (iterSlice getSOF offsets counts).h⟩ := by
      simp [sliceLoopStep, iterSlice_eq, hv]
    show (match sliceLoopStep getSOF isValid offsets counts ⟨[], c⟩ with
      | Except.error e => Except.error e
      | Except.ok st2 => sliceLoopIter getSOF isValid offsets counts n st2) = _
    rw [hstep]
    dsimp only
    rw [ih (c + (iterSlice getSOF offsets counts).h)]
    have e2 : c + (iterSlice getSOF offsets counts).h +
        n * (iterSlice getSOF offsets counts).h =
        c + (n + 1) * (iterSlice getSOF offsets counts).h := by ring
    rw [e2]

/-- C1 (counterexample): a concrete new-format run with two valid slices,
each of width 2 and height 3.  The provisional dimensions computed by the
code are (2, 6) — the common slice width and the SUM of the heights —
whereas the claim predicts (sum of widths, max height) = (4, 3). -/
theorem newFormat_dims_cex :
    collectSlices exGetSOF exValid exOffsets exCounts =
      Except.ok ⟨[⟨2, 3, 100, 10⟩, ⟨2, 3, 100, 10⟩], 6⟩ ∧
    newFormatProvisionalDim exGetSOF exValid exOffsets exCounts =
      Except.ok (2, 6) ∧
    sliceWidthSum [⟨2, 3, 100, 10⟩, ⟨2, 3, 100, 10⟩] = 4 ∧
    sliceHeightMax [⟨2, 3, 100, 10⟩, ⟨2, 3, 100, 10⟩] = 3 ∧
    ¬(((2 : Nat), (6 : Nat)) = (4, 3)) :=
  ⟨rfl, rfl, rfl, rfl, by decide⟩

/-- C1 (amended): for every successful new-format slice-collection run,
the provisional raster dimensions are (w, N·h) where w and h are the
width and height of the one slice descriptor every iteration interrogates
(index 0 of the strip entries) and N is the number of strip offsets —
i.e. dim.x is the COMMON slice width and dim.y is the SUM of the
per-iteration slice heights, not the other way round. -/
theorem newFormat_dims (getSOF : Nat → Nat → SOFInfo)
    (isValid : Nat → Nat → Bool) (offsets counts : List Nat) (d : Nat × Nat)
    (h : newFormatProvisionalDim getSOF isValid offsets counts = Except.ok d) :
    d.1 = (iterSlice getSOF offsets counts).w ∧
    d.2 = offsets.length * (iterSlice getSOF offsets counts).h := by
  unfold newFormatProvisionalDim collectSlices at h
  cases hv : isValid (getIntAt offsets 0) (getIntAt counts 0) with
  | false =>
    rw [sliceLoopIter_invalid_run getSOF isValid offsets counts hv
      offsets.length 0] at h
    simp at h
  | true =>
    have h0 := sliceLoopIter_valid_run getSOF isValid offsets counts hv
      offsets.length 0 0
    rw [show (⟨List.replicate 0 (iterSlice getSOF offsets counts), 0⟩ :
      SliceLoopState) = ⟨[], 0⟩ from rfl] at h0
    rw [h0] at h
    cases hN : offsets.length with
    | zero => rw [hN] at h; simp at h
    | succ n =>
      rw [hN] at h
      rw [show (0 : Nat) + (n + 1) = n + 1 from by omega,
        List.replicate_succ] at h
      simp only [Except.ok.injEq] at h
      cases h
      simp

/-- C2 (the code, evaluated at the failing input): with strip offsets
[100, 200] and byte counts [10, 20], every iteration of the slice loop
interrogates (100, 10) — element 0 of each entry — so slice index 1 is
NOT interrogated at (offset[1], size[1]) = (200, 20); both kept slice
descriptors carry (offset, size) = (100, 10). -/
theorem sliceLoop_reads_index_zero :
    interrogatedOffsetSize exOffsets exCounts = (100, 10) ∧
    (getIntAt exOffsets 1, getIntAt exCounts 1) = (200, 20) ∧
    collectSlices exGetSOF exValid exOffsets exCounts =
      Except.ok ⟨[⟨2, 3, 100, 10⟩, ⟨2, 3, 100, 10⟩], 6⟩ ∧
    ¬(((100 : Nat), (10 : Nat)) = (200, 20)) :=
  ⟨rfl, rfl, rfl, by decide⟩

/-- Helper for C3: the decode-dispatch list, element by element, with an
arbitrary starting y-offset. -/
theorem decodeCallsAux_get (slices : List Cr2Slice) :
    ∀ (offY i : Nat) (s : Cr2Slice), slices.get? i = some s →
      (decodeCallsAux slices offY).get? i =
        some (DecodeCall.mk s.offset s.size 0 (offY + prefixWidthSum slices i)) := by
  induction slices with
  | nil => intro offY i s hs; simp at hs
  | cons a rest ih =>
    intro offY i s hs
    cases i with
    | zero =>
      simp only [List.get?] at hs
      cases hs
      simp [decodeCallsAux, prefixWidthSum]
    | succ i =>
      simp only [List.get?] at hs
      have := ih (offY + a.w) i s hs
      simp only [decodeCallsAux, List.get?]
      rw [this]
      have : offY + a.w + prefixWidthSum rest i =
          offY + prefixWidthSum (a :: rest) (i + 1) := by
        simp [prefixWidthSum, List.take]
        omega
      rw [this]

/-- C3 (counterexample): two slices of width 2.  The second decode call is
issued with destination x-origin 0 and y-origin 2 (= the width of slice
0), not — as the claim states — x-origin 2 and y-origin 0. -/
theorem decodeCalls_origin_cex :
    decodeCalls [⟨2, 3, 100, 10⟩, ⟨2, 5, 200, 20⟩] =
      [⟨100, 10, 0, 0⟩, ⟨200, 20, 0, 2⟩] ∧
    prefixWidthSum [⟨2, 3, 100, 10⟩, ⟨2, 5, 200, 20⟩] 1 = 2 ∧
    ¬((DecodeCall.mk 200 20 0 2).dstX = 2 ∧ (DecodeCall.mk 200 20 0 2).dstY = 0) :=
  ⟨rfl, rfl, by decide⟩

/-- C3 (amended): slice i is decoded at destination x-origin 0 and
destination y-origin equal to the cumulative sum of the widths of slices
0..i-1 — the cumulative width goes into the y-origin argument, with the
x-origin fixed at 0. -/
theorem decodeCalls_origin (slices : List Cr2Slice) (i : Nat) (s : Cr2Slice)
    (hs : slices.get? i = some s) :
    (decodeCalls slices).get? i =
      some (DecodeCall.mk s.offset s.size 0 (prefixWidthSum slices i)) := by
  have := decodeCallsAux_get slices 0 i s hs
  simpa [decodeCalls] using this

/-- Witness for the amended C3 at a concrete slice list. -/
theorem decodeCalls_origin_witness :
    ([(⟨2, 3, 100, 10⟩ : Cr2Slice), ⟨4, 5, 200, 20⟩].get? 1 =
      some (⟨4, 5, 200, 20⟩ : Cr2Slice)) ∧
    (decodeCalls [⟨2, 3, 100, 10⟩, ⟨4, 5, 200, 20⟩]).get? 1 =
      some (DecodeCall.mk 200 20 0
        (prefixWidthSum [⟨2, 3, 100, 10⟩, ⟨4, 5, 200, 20⟩] 1)) :=
  ⟨rfl, decodeCalls_origin [⟨2, 3, 100, 10⟩, ⟨4, 5, 200, 20⟩] 1 ⟨4, 5, 200, 20⟩ rfl⟩

/-- Helper for C4: from any slice index at least 1 on, no outcome is
fatal; the loop completes and logs one message per decoder or I/O error. -/
theorem decodeLoopFrom_pos (outs : List SliceOutcome) :
    ∀ i : Nat, 1 ≤ i →
      decodeLoopFrom outs i = Except.ok (loggedMessages outs) := by
  induction outs with
  | nil => intro i _; rfl
  | cons o rest ih =>
    intro i hi
    cases o with
    | ok =>
      simp only [decodeLoopFrom, loggedMessages]
      exact ih (i + 1) (by omega)
    | rde m =>
      simp only [decodeLoopFrom, loggedMessages]
      rw [if_neg (by omega), ih (i + 1) (by omega)]
    | io m =>
      simp only [decodeLoopFrom, loggedMessages]
      rw [ih (i + 1) (by omega)]

/-- C4 (counterexample): an I/O failure on slice 0 followed by a decoder
failure on slice 1.  The decode completes — no error propagates — and
both messages end up in the error log; the claim predicted that the I/O
failure on slice 0 is fatal and no raster is produced. -/
theorem sliceDecode_io_slice0_cex :
    runSliceDecodes [SliceOutcome.io "x", SliceOutcome.rde "y"] =
      Except.ok ["x", "y"] := rfl

/-- C4 (amended): a decoder failure (RawDecoderException) on slice 0 is
fatal and propagates; a decoder failure on any slice i at least 1 and an I/O
failure (IOException) on ANY slice — slice 0 included — are appended to
the raster's error log and decoding continues with the next slice. -/
theorem sliceDecode_error_policy (outs rest : List SliceOutcome) (m : String)
    (i : Nat) (hi : 1 ≤ i) :
    decodeLoopFrom outs i = Except.ok (loggedMessages outs) ∧
    runSliceDecodes (SliceOutcome.rde m :: rest) = Except.error m ∧
    runSliceDecodes (SliceOutcome.io m :: rest) =
      Except.ok (m :: loggedMessages rest) ∧
    runSliceDecodes (SliceOutcome.ok :: rest) =
      Except.ok (loggedMessages rest) := by
  refine ⟨decodeLoopFrom_pos outs i hi, rfl, ?_, ?_⟩
  · simp only [runSliceDecodes, decodeLoopFrom]
    rw [decodeLoopFrom_pos rest 1 (by omega)]
  · simp only [runSliceDecodes, decodeLoopFrom]
    exact decodeLoopFrom_pos rest 1 (by omega)

/-- Witness for the amended C4 at concrete outcome lists. -/
theorem sliceDecode_error_policy_witness :
    (1 ≤ 1) ∧
    decodeLoopFrom [SliceOutcome.rde "a"] 1 =
      Except.ok (loggedMessages [SliceOutcome.rde "a"]) :=
  ⟨by decide,
    (sliceDecode_error_policy [SliceOutcome.rde "a"] [] "z" 1 (by decide)).1⟩

/-- C8 (confirmed): when the 0x123 entry exists with 16-bit type and 4096
values, the raster dimensions are unchanged in both branches; without the
uncorrected-output request every sample s is replaced by table[s & 0xfff]
and the table ends up detached; with it, the table is installed and the
samples are untouched. -/
theorem linearisation_correct (c : TiffEntryShorts) (uncorrected : Bool)
    (img : RawImg) (hType : c.isShortType = true)
    (hCount : c.values.length = 4096) :
    ((applyLinearisation (some c) uncorrected img).dimx = img.dimx ∧
     (applyLinearisation (some c) uncorrected img).dimy = img.dimy) ∧
    (uncorrected = false →
      (applyLinearisation (some c) uncorrected img).table = none ∧
      ∀ i : Nat, (applyLinearisation (some c) uncorrected img).samples.get? i =
        (img.samples.get? i).map (fun s => getIntAt c.values (s &&& 0xfff))) ∧
    (uncorrected = true →
      (applyLinearisation (some c) uncorrected img).table = some c.values ∧
      (applyLinearisation (some c) uncorrected img).samples = img.samples) := by
  cases uncorrected with
  | false =>
    simp [applyLinearisation, hType, hCount, setTable, sixteenBitLookup,
      List.get?_eq_getElem?, List.getElem?_map]
  | true =>
    simp [applyLinearisation, hType, hCount, setTable]

/-- Witness for C8 at a concrete 4096-entry table and raster. -/
theorem linearisation_correct_witness :
    (⟨true, List.replicate 4096 7⟩ : TiffEntryShorts).isShortType = true ∧
    (List.replicate 4096 (7 : Nat)).length = 4096 ∧
    ((applyLinearisation (some ⟨true, List.replicate 4096 7⟩) false
        ⟨2, 1, [5, 4095], none⟩).dimx = (⟨2, 1, [5, 4095], none⟩ : RawImg).dimx ∧
     (applyLinearisation (some ⟨true, List.replicate 4096 7⟩) false
        ⟨2, 1, [5, 4095], none⟩).dimy = (⟨2, 1, [5, 4095], none⟩ : RawImg).dimy) :=
  ⟨rfl, by rw [List.length_replicate],
    (linearisation_correct ⟨true, List.replicate 4096 7⟩ false
      ⟨2, 1, [5, 4095], none⟩ rfl (by rw [List.length_replicate])).1⟩

/-- C9 (counterexample): with subsampling factors (sx, sy) = (1, 2) — in
the convention of the data model, sx = subsampling.x — the mode string is
empty, not "sRaw2": the code requires subsampling.x == 2 and
subsampling.y == 1 for "sRaw2". -/
theorem modeString_cex :
    modeString 1 2 = "" ∧ modeString 1 2 ≠ "sRaw2" := by
  constructor
  · rfl
  · intro h
    exact absurd h (by decide)

/-- C9 (amended): the mode string is "sRaw1" exactly for (sx, sy) = (2, 2),
"sRaw2" exactly for (sx, sy) = (2, 1), and empty for every other pair. -/
theorem modeString_cases (ssx ssy : Nat) :
    (modeString ssx ssy = "sRaw1" ↔ (ssx = 2 ∧ ssy = 2)) ∧
    (modeString ssx ssy = "sRaw2" ↔ (ssx = 2 ∧ ssy = 1)) ∧
    (modeString ssx ssy = "" ↔ ¬(ssx = 2 ∧ ssy = 2) ∧ ¬(ssx = 2 ∧ ssy = 1)) := by
  simp only [modeString]
  by_cases h2 : ssy = 1 ∧ ssx = 2
  · rw [if_pos h2]
    obtain ⟨hy, hx⟩ := h2
    subst hy; subst hx
    decide
  · rw [if_neg h2]
    by_cases h1 : ssy = 2 ∧ ssx = 2
    · rw [if_pos h1]
      obtain ⟨hy, hx⟩ := h1
      subst hy; subst hx
      decide
    · rw [if_neg h1]
      exact ⟨⟨fun h => absurd h (by decide), fun h => absurd ⟨h.2, h.1⟩ h1⟩,
        ⟨fun h => absurd h (by decide), fun h => absurd ⟨h.2, h.1⟩ h2⟩,
        ⟨fun _ => ⟨fun h => h1 ⟨h.2, h.1⟩, fun h => h2 ⟨h.2, h.1⟩⟩,
          fun _ => rfl⟩⟩

/-- C10 (confirmed): without the "old_sraw_hue" hint and without a tag-0x10
model-id entry, getHue returns 0 — whatever the "force_new_sraw_hue" hint
says — so the chroma bias -hue + 16384 is exactly 16384; and when the
model-id entry IS present the force hint does take effect, producing
((sy*sx) - 1) >> 1. -/
theorem getHue_no_model_id (hints : HueHints) (ssx ssy id : Nat)
    (hOld : hints.oldSrawHue = false) :
    getHue hints none ssx ssy = 0 ∧
    hueBias (getHue hints none ssx ssy) = 16384 ∧
    getHue ⟨false, true⟩ (some id) ssx ssy =
      asr ((ssy * ssx : Nat) - 1 : Int) 1 := by
  refine ⟨?_, ?_, ?_⟩
  · simp [getHue, hOld]
  · simp [getHue, hueBias, hOld]
  · simp [getHue]

/-- Witness for C10 with the force hint set and no model-id entry. -/
theorem getHue_no_model_id_witness :
    (⟨false, true⟩ : HueHints).oldSrawHue = false ∧
    getHue ⟨false, true⟩ none 2 2 = 0 :=
  ⟨rfl, (getHue_no_model_id ⟨false, true⟩ 2 2 0 rfl).1⟩

/-- Witness for the amended C1 at the concrete two-slice input. -/
theorem newFormat_dims_witness :
    newFormatProvisionalDim exGetSOF exValid exOffsets exCounts =
      Except.ok (2, 6) ∧
    (((2 : Nat), (6 : Nat)).1 = (iterSlice exGetSOF exOffsets exCounts).w ∧
     ((2 : Nat), (6 : Nat)).2 =
       exOffsets.length * (iterSlice exGetSOF exOffsets exCounts).h) :=
  ⟨rfl, newFormat_dims exGetSOF exValid exOffsets exCounts (2, 6) rfl⟩

/-- Helper: STORE_RGB leaves untouched positions unchanged. -/
theorem storeRGB_ne (line : Nat → Int) (a b c : Nat) (v : Int × Int × Int)
    (j : Nat) (h1 : j ≠ a) (h2 : j ≠ b) (h3 : j ≠ c) :
    storeRGB line a b c v j = line j := by
  simp [storeRGB, h1, h2, h3]

/-- Helper: STORE_RGB writes the clamped first component at `a`. -/
theorem storeRGB_a (line : Nat → Int) (a b c : Nat) (v : Int × Int × Int) :
    storeRGB line a b c v a = clampbits16 v.1 := by
  simp [storeRGB]

/-- Helper: STORE_RGB writes the clamped second component at `b`. -/
theorem storeRGB_b (line : Nat → Int) (a b c : Nat) (v : Int × Int × Int)
    (hba : b ≠ a) : storeRGB line a b c v b = clampbits16 v.2.1 := by
  simp [storeRGB, hba]

/-- Helper: STORE_RGB writes the clamped third component at `c`. -/
theorem storeRGB_c (line : Nat → Int) (a b c : Nat) (v : Int × Int × Int)
    (hca : c ≠ a) (hcb : c ≠ b) :
    storeRGB line a b c v c = clampbits16 v.2.2 := by
  simp [storeRGB, hca, hcb]

/-- Helper: the 4:2:2 x-loop never writes below its starting offset. -/
theorem interp422loop_lt (c0 c1 c2 hb : Int) :
    ∀ (n off : Nat) (line : Nat → Int) (j : Nat), j < off →
      interp422loop c0 c1 c2 hb n off line j = line j := by
  intro n
  induction n with
  | zero => intro off line j _; rfl
  | succ n ih =>
    intro off line j hj
    simp only [interp422loop]
    rw [ih (off + 3 + 3) _ j (by omega)]
    rw [storeRGB_ne _ _ _ _ _ _ (by omega) (by omega) (by omega),
      storeRGB_ne _ _ _ _ _ _ (by omega) (by omega) (by omega)]

/-- Helper: the 4:2:2 x-loop never writes at or beyond off + 6n. -/
theorem interp422loop_ge (c0 c1 c2 hb : Int) :
    ∀ (n off : Nat) (line : Nat → Int) (j : Nat), off + 6 * n ≤ j →
      interp422loop c0 c1 c2 hb n off line j = line j := by
  intro n
  induction n with
  | zero => intro off line j _; rfl
  | succ n ih =>
    intro off line j hj
    simp only [interp422loop]
    rw [ih (off + 3 + 3) _ j (by omega)]
    rw [storeRGB_ne _ _ _ _ _ _ (by omega) (by omega) (by omega),
      storeRGB_ne _ _ _ _ _ _ (by omega) (by omega) (by omega)]

/-- Helper: interp422pairSpec only reads positions at or above p. -/
theorem interp422pairSpec_congr (c0 c1 c2 hb : Int) (l l2 : Nat → Int)
    (p : Nat) (h : ∀ j, p ≤ j → l j = l2 j) :
    interp422pairSpec c0 c1 c2 hb l p =
      interp422pairSpec c0 c1 c2 hb l2 p := by
  simp only [interp422pairSpec]
  rw [h p (by omega), h (p + 1) (by omega), h (p + 2) (by omega),
    h (p + 3) (by omega), h (p + 7) (by omega), h (p + 8) (by omega)]

/-- Helper: the value the 4:2:2 x-loop leaves at position off + 6k + r is
the r-th component of the pixel pair computed from the ORIGINAL scanline
data at off + 6k (the loop reads every location before overwriting it). -/
theorem interp422loop_get (c0 c1 c2 hb : Int) :
    ∀ (n off : Nat) (line : Nat → Int) (k r : Nat), k < n → r < 6 →
      interp422loop c0 c1 c2 hb n off line (off + 6 * k + r) =
        sel6 r (interp422pairSpec c0 c1 c2 hb line (off + 6 * k)) := by
  intro n
  induction n with
  | zero => intro off line k r hk _; exact absurd hk (by omega)
  | succ n ih =>
    intro off line k r hk hr
    cases k with
    | zero =>
      simp only [interp422loop]
      interval_cases r <;> simp only [Nat.mul_zero, Nat.add_zero]
      · rw [interp422loop_lt c0 c1 c2 hb n (off + 3 + 3) _ _ (by omega)]
        rw [storeRGB_ne _ _ _ _ _ _ (by omega) (by omega) (by omega),
          storeRGB_a]
        simp [interp422pairSpec, sel6]
      · rw [interp422loop_lt c0 c1 c2 hb n (off + 3 + 3) _ _ (by omega)]
        rw [storeRGB_ne _ _ _ _ _ _ (by omega) (by omega) (by omega),
          storeRGB_b _ _ _ _ _ (by omega)]
        simp [interp422pairSpec, sel6]
      · rw [interp422loop_lt c0 c1 c2 hb n (off + 3 + 3) _ _ (by omega)]
        rw [storeRGB_ne _ _ _ _ _ _ (by omega) (by omega) (by omega),
          storeRGB_c _ _ _ _ _ (by omega) (by omega)]
        simp [interp422pairSpec, sel6]
      · rw [interp422loop_lt c0 c1 c2 hb n (off + 3 + 3) _ _ (by omega)]
        rw [storeRGB_a,
          storeRGB_ne _ _ _ _ _ _ (by omega) (by omega) (by omega),
          storeRGB_ne _ _ _ _ _ _ (by omega) (by omega) (by omega),
          storeRGB_ne _ _ _ _ _ _ (by omega) (by omega) (by omega)]
        simp only [interp422pairSpec, sel6, if_neg (by omega : ¬(3 : Nat) = 0),
          if_neg (by omega : ¬(3 : Nat) = 1), if_neg (by omega : ¬(3 : Nat) = 2),
          if_pos rfl]
        norm_num
      · rw [interp422loop_lt c0 c1 c2 hb n (off + 3 + 3) _ _ (by omega)]
        rw [storeRGB_b _ _ _ _ _ (by omega),
          storeRGB_ne _ _ _ _ _ _ (by omega) (by omega) (by omega),
          storeRGB_ne _ _ _ _ _ _ (by omega) (by omega) (by omega),
          storeRGB_ne _ _ _ _ _ _ (by omega) (by omega) (by omega)]
        simp only [interp422pairSpec, sel6, if_neg (by omega : ¬(4 : Nat) = 0),
          if_neg (by omega : ¬(4 : Nat) = 1), if_neg (by omega : ¬(4 : Nat) = 2),
          if_neg (by omega : ¬(4 : Nat) = 3), if_pos rfl]
        norm_num
      · rw [interp422loop_lt c0 c1 c2 hb n (off + 3 + 3) _ _ (by omega)]
        rw [storeRGB_c _ _ _ _ _ (by omega) (by omega),
          storeRGB_ne _ _ _ _ _ _ (by omega) (by omega) (by omega),
          storeRGB_ne _ _ _ _ _ _ (by omega) (by omega) (by omega),
          storeRGB_ne _ _ _ _ _ _ (by omega) (by omega) (by omega)]
        simp only [interp422pairSpec, sel6, if_neg (by omega : ¬(5 : Nat) = 0),
          if_neg (by omega : ¬(5 : Nat) = 1), if_neg (by omega : ¬(5 : Nat) = 2),
          if_neg (by omega : ¬(5 : Nat) = 3), if_neg (by omega : ¬(5 : Nat) = 4)]
        try norm_num
    | succ k =>
      have e2 : off + 6 * (k + 1) = off + 3 + 3 + 6 * k := by ring
      rw [e2]
      simp only [interp422loop]
      rw [ih (off + 3 + 3) _ k r (by omega) hr]
      congr 1
      refine interp422pairSpec_congr c0 c1 c2 hb _ line _ (fun j hj => ?_)
      rw [storeRGB_ne _ _ _ _ _ _ (by omega) (by omega) (by omega),
        storeRGB_ne _ _ _ _ _ _ (by omega) (by omega) (by omega)]

/-- Helper: pixels written by a full x-loop iteration of interpolate_422,
seen through the whole scanline pass. -/
theorem interp422row_loop_pix (c0 c1 c2 hue : Int) (w x r : Nat)
    (line : Nat → Int) (hx : x < w - 1) (hr : r < 6) :
    interp422row c0 c1 c2 hue w line (6 * x + r) =
      sel6 r (interp422pairSpec c0 c1 c2 (hueBias hue) line (6 * x)) := by
  simp only [interp422row, interp422lastTwo]
  rw [storeRGB_ne _ _ _ _ _ _ (by omega) (by omega) (by omega),
    storeRGB_ne _ _ _ _ _ _ (by omega) (by omega) (by omega)]
  have h := interp422loop_get c0 c1 c2 (hueBias hue) (w - 1) 0 line x r hx hr
  simpa using h

/-- Helper: the final two pixels of an interpolate_422 scanline, in terms
of the original data. -/
theorem interp422row_last_pix (c0 c1 c2 hue : Int) (w : Nat)
    (line : Nat → Int) :
    (interp422row c0 c1 c2 hue w line (6 * (w - 1)) =
      clampbits16 (interp422lastSpec c0 c1 c2 (hueBias hue) line (6 * (w - 1))).1.1 ∧
     interp422row c0 c1 c2 hue w line (6 * (w - 1) + 1) =
      clampbits16 (interp422lastSpec c0 c1 c2 (hueBias hue) line (6 * (w - 1))).1.2.1 ∧
     interp422row c0 c1 c2 hue w line (6 * (w - 1) + 2) =
      clampbits16 (interp422lastSpec c0 c1 c2 (hueBias hue) line (6 * (w - 1))).1.2.2) ∧
    (interp422row c0 c1 c2 hue w line (6 * (w - 1) + 3) =
      clampbits16 (interp422lastSpec c0 c1 c2 (hueBias hue) line (6 * (w - 1))).2.1 ∧
     interp422row c0 c1 c2 hue w line (6 * (w - 1) + 4) =
      clampbits16 (interp422lastSpec c0 c1 c2 (hueBias hue) line (6 * (w - 1))).2.2.1 ∧
     interp422row c0 c1 c2 hue w line (6 * (w - 1) + 5) =
      clampbits16 (interp422lastSpec c0 c1 c2 (hueBias hue) line (6 * (w - 1))).2.2.2) := by
  simp only [interp422row, interp422lastTwo]
  rw [interp422loop_ge c0 c1 c2 (hueBias hue) (w - 1) 0 line (6 * (w - 1))
      (by omega),
    interp422loop_ge c0 c1 c2 (hueBias hue) (w - 1) 0 line (6 * (w - 1) + 1)
      (by omega),
    interp422loop_ge c0 c1 c2 (hueBias hue) (w - 1) 0 line (6 * (w - 1) + 2)
      (by omega)]
  refine ⟨⟨?_, ?_, ?_⟩, ?_, ?_, ?_⟩
  · rw [storeRGB_ne _ _ _ _ _ _ (by omega) (by omega) (by omega), storeRGB_a]
    simp [interp422lastSpec]
  · rw [storeRGB_ne _ _ _ _ _ _ (by omega) (by omega) (by omega),
      storeRGB_b _ _ _ _ _ (by omega)]
    simp [interp422lastSpec]
  · rw [storeRGB_ne _ _ _ _ _ _ (by omega) (by omega) (by omega),
      storeRGB_c _ _ _ _ _ (by omega) (by omega)]
    simp [interp422lastSpec]
  · rw [storeRGB_a, storeRGB_ne _ _ _ _ _ _ (by omega) (by omega) (by omega),
      interp422loop_ge c0 c1 c2 (hueBias hue) (w - 1) 0 line (6 * (w - 1) + 3)
        (by omega)]
    simp [interp422lastSpec]
  · rw [storeRGB_b _ _ _ _ _ (by omega),
      storeRGB_ne _ _ _ _ _ _ (by omega) (by omega) (by omega),
      interp422loop_ge c0 c1 c2 (hueBias hue) (w - 1) 0 line (6 * (w - 1) + 3)
        (by omega)]
    simp [interp422lastSpec]
  · rw [storeRGB_c _ _ _ _ _ (by omega) (by omega),
      storeRGB_ne _ _ _ _ _ _ (by omega) (by omega) (by omega),
      interp422loop_ge c0 c1 c2 (hueBias hue) (w - 1) 0 line (6 * (w - 1) + 3)
        (by omega)]
    simp [interp422lastSpec]

/-- C6 (amended): in the classic 4:2:2 and 4:2:0 interpolation variants,
every chroma sample read from memory has the bias -hue + 16384 SUBTRACTED
(not added) before the YUV-to-RGB matrixing: every 4:2:2 loop pixel pair
and the final 4:2:2 pixel pair equal the matrixing of the per-read
debiased chroma values of the original scanline, and the first 4:2:0
output block equals the matrixing of the per-read debiased grid values. -/
theorem interp_chroma_bias_subtracted (c0 c1 c2 hue : Int) (w x : Nat)
    (line : Nat → Int) (g : Nat → Nat → Int) (hx : x < w - 1) :
    ((interp422row c0 c1 c2 hue w line (6 * x),
      interp422row c0 c1 c2 hue w line (6 * x + 1),
      interp422row c0 c1 c2 hue w line (6 * x + 2)) =
        clampTriple (interp422pairSpec c0 c1 c2 (hueBias hue) line (6 * x)).1 ∧
     (interp422row c0 c1 c2 hue w line (6 * x + 3),
      interp422row c0 c1 c2 hue w line (6 * x + 4),
      interp422row c0 c1 c2 hue w line (6 * x + 5)) =
        clampTriple (interp422pairSpec c0 c1 c2 (hueBias hue) line (6 * x)).2) ∧
    ((interp422row c0 c1 c2 hue w line (6 * (w - 1)),
      interp422row c0 c1 c2 hue w line (6 * (w - 1) + 1),
      interp422row c0 c1 c2 hue w line (6 * (w - 1) + 2)) =
        clampTriple (interp422lastSpec c0 c1 c2 (hueBias hue) line (6 * (w - 1))).1 ∧
     (interp422row c0 c1 c2 hue w line (6 * (w - 1) + 3),
      interp422row c0 c1 c2 hue w line (6 * (w - 1) + 4),
      interp422row c0 c1 c2 hue w line (6 * (w - 1) + 5)) =
        clampTriple (interp422lastSpec c0 c1 c2 (hueBias hue) line (6 * (w - 1))).2) ∧
    ((interp420 c0 c1 c2 hue 2 2 0 2 g 0 0,
      interp420 c0 c1 c2 hue 2 2 0 2 g 0 1,
      interp420 c0 c1 c2 hue 2 2 0 2 g 0 2) =
        clampTriple (interp420blockSpec c0 c1 c2 (hueBias hue) g).1 ∧
     (interp420 c0 c1 c2 hue 2 2 0 2 g 0 3,
      interp420 c0 c1 c2 hue 2 2 0 2 g 0 4,
      interp420 c0 c1 c2 hue 2 2 0 2 g 0 5) =
        clampTriple (interp420blockSpec c0 c1 c2 (hueBias hue) g).2.1 ∧
     (interp420 c0 c1 c2 hue 2 2 0 2 g 1 0,
      interp420 c0 c1 c2 hue 2 2 0 2 g 1 1,
      interp420 c0 c1 c2 hue 2 2 0 2 g 1 2) =
        clampTriple (interp420blockSpec c0 c1 c2 (hueBias hue) g).2.2.1 ∧
     (interp420 c0 c1 c2 hue 2 2 0 2 g 1 3,
      interp420 c0 c1 c2 hue 2 2 0 2 g 1 4,
      interp420 c0 c1 c2 hue 2 2 0 2 g 1 5) =
        clampTriple (interp420blockSpec c0 c1 c2 (hueBias hue) g).2.2.2) := by
  refine ⟨⟨?_, ?_⟩, ?_, rfl, rfl, rfl, rfl⟩
  · simp only [clampTriple, Prod.mk.injEq]
    refine ⟨?_, ?_, ?_⟩
    · have h := interp422row_loop_pix c0 c1 c2 hue w x 0 line hx (by omega)
      simpa [sel6] using h
    · have h := interp422row_loop_pix c0 c1 c2 hue w x 1 line hx (by omega)
      simpa [sel6] using h
    · have h := interp422row_loop_pix c0 c1 c2 hue w x 2 line hx (by omega)
      simpa [sel6] using h
  · simp only [clampTriple, Prod.mk.injEq]
    refine ⟨?_, ?_, ?_⟩
    · have h := interp422row_loop_pix c0 c1 c2 hue w x 3 line hx (by omega)
      simpa [sel6] using h
    · have h := interp422row_loop_pix c0 c1 c2 hue w x 4 line hx (by omega)
      simpa [sel6] using h
    · have h := interp422row_loop_pix c0 c1 c2 hue w x 5 line hx (by omega)
      simpa [sel6] using h
  · obtain ⟨⟨h1, h2, h3⟩, h4, h5, h6⟩ :=
      interp422row_last_pix c0 c1 c2 hue w line
    simp only [clampTriple, Prod.mk.injEq]
    exact ⟨⟨h1, h2, h3⟩, h4, h5, h6⟩

/-- C6 (counterexample): at hue = 0 the bias is 16384.  On a concrete
scanline the first output pixel of interpolate_422 equals the matrixing
of the chroma samples with the bias SUBTRACTED, and differs from the
value the claim as stated predicts (bias ADDED to the samples). -/
theorem interp_chroma_bias_cex :
    interp422row 256 256 256 0 2 exLine422 0 =
      clampbits16 (yuvRgbClassic 256 256 256 (exLine422 0)
        (exLine422 1 - hueBias 0) (exLine422 2 - hueBias 0)).1 ∧
    interp422row 256 256 256 0 2 exLine422 0 ≠
      clampbits16 (yuvRgbClassic 256 256 256 (exLine422 0)
        (chromaWithBiasAdded 0 (exLine422 1))
        (chromaWithBiasAdded 0 (exLine422 2))).1 := by
  exact ⟨by decide, by decide⟩

/-- Witness for the amended C6 at concrete inputs. -/
theorem interp_chroma_bias_subtracted_witness :
    ((0 : Nat) < 3 - 1) ∧
    ((interp422row 256 256 256 0 3 exLine422 0,
      interp422row 256 256 256 0 3 exLine422 1,
      interp422row 256 256 256 0 3 exLine422 2) =
      clampTriple (interp422pairSpec 256 256 256 (hueBias 0) exLine422 0).1 ∧
     (interp422row 256 256 256 0 3 exLine422 3,
      interp422row 256 256 256 0 3 exLine422 4,
      interp422row 256 256 256 0 3 exLine422 5) =
      clampTriple (interp422pairSpec 256 256 256 (hueBias 0) exLine422 0).2) :=
  ⟨by decide, by
    have h := (interp_chroma_bias_subtracted 256 256 256 0 3 0 exLine422
      (fun _ _ => 0) (by decide)).1
    simpa using h⟩

end Cr2Spec
